import Mathlib

/-!
Shallow embedding of the 3D Game of Life simulation engine
(class GameOfLife3D in src/lib/gameOfLife3D.ts, reproduced in README.md).

Grids are nested lists of integers, mirroring the JS `number[][][]`.
A JS indexed read that falls outside an array yields `undefined`; arithmetic
on `undefined` yields `NaN`.  Both failure values are modelled by `none` in
an `Option Int`; this coincides with the JS semantics on every grid that
covers the configured `gridSize` region, which is the precondition of every
statement below that touches raw reads.
-/

namespace GoL3D

structure GameOfLife3DConfig where
  gridSize : Nat
  birthRule : Int
  survivalMin : Int
  survivalMax : Int
  periodicBoundaries : Bool

abbrev Grid3D := List (List (List Int))

/-- JS array read `l[i]` at an integer index: `undefined` (`none`) when the
index is negative or past the end. -/
def listGetI (l : List α) (i : Int) : Option α :=
  if i < 0 then none else l[i.toNat]?

/-- The read `grid[x][y][z]`; `none` models an `undefined` result. -/
def cellAt (g : Grid3D) (x y z : Int) : Option Int :=
  (listGetI g x).bind fun plane =>
    (listGetI plane y).bind fun row => listGetI row z

/-- JS `+` on numbers where `none` stands for `NaN`/`undefined`
(`NaN` absorbs). -/
def jsAdd (a b : Option Int) : Option Int :=
  match a, b with
  | some m, some n => some (m + n)
  | _, _ => none

/-- JS `>=` against a number: false when the left side is `NaN`. -/
def jsGe (a : Option Int) (b : Int) : Bool :=
  match a with
  | some m => decide (b ≤ m)
  | none => false

/-- JS `<=` against a number: false when the left side is `NaN`. -/
def jsLe (a : Option Int) (b : Int) : Bool :=
  match a with
  | some m => decide (m ≤ b)
  | none => false

/-- JS `===` against a number: false when the left side is `NaN` or
`undefined`. -/
def jsEq (a : Option Int) (b : Int) : Bool :=
  match a with
  | some m => decide (m = b)
  | none => false

/-- Method `createEmptyGrid()`: a `gridSize` cube of zeros
(`Array(gridSize).fill(...)` nested three deep). -/
def createEmptyGrid (cfg : GameOfLife3DConfig) : Grid3D :=
  List.replicate cfg.gridSize
    (List.replicate cfg.gridSize (List.replicate cfg.gridSize 0))

/-- A loop that assigns `F x y z` to every cell `(x, y, z)` of a fresh
`n`-cube (the shape shared by `createRandomGrid` and `step`, which both
start from `createEmptyGrid()` and assign every cell once). -/
def gridTabulate (n : Nat) (F : Nat → Nat → Nat → Int) : Grid3D :=
  (List.range n).map fun x =>
    (List.range n).map fun y =>
      (List.range n).map fun z => F x y z

/-- Method `createRandomGrid(density)`: the JS loop assigns every cell of a fresh
empty grid `Math.random() < density ? 1 : 0`; the per-cell random draw is
modelled by the oracle `draw`. -/
def createRandomGrid (cfg : GameOfLife3DConfig)
    (draw : Nat → Nat → Nat → Bool) : Grid3D :=
  gridTabulate cfg.gridSize fun x y z => if draw x y z then 1 else 0

/-- The list `[-1, 0, 1]` each delta loop ranges over. -/
def deltas : List Int := [-1, 0, 1]

/-- The 26 loop iterations of `countNeighbors` that survive the
`dx === 0 && dy === 0 && dz === 0` skip, in loop order. -/
def neighborOffsets : List (Int × Int × Int) :=
  deltas.flatMap fun dx => deltas.flatMap fun dy =>
    deltas.filterMap fun dz =>
      if dx = 0 ∧ dy = 0 ∧ dz = 0 then none else some (dx, dy, dz)

/-- The wrap `(n + gridSize) % gridSize` (JS `%` truncates toward zero,
i.e. `Int.tmod`). -/
def wrapC (gs n : Int) : Int := Int.tmod (n + gs) gs

/-- One iteration of the `countNeighbors` loop body: wrap the neighbor
coordinates when `periodicBoundaries`, otherwise skip out-of-range
neighbors, and add the neighboring cell to the running count. -/
def neighborStep (cfg : GameOfLife3DConfig) (g : Grid3D) (x y z : Int)
    (count : Option Int) (d : Int × Int × Int) : Option Int :=
  let gs : Int := cfg.gridSize
  let nx := x + d.1
  let ny := y + d.2.1
  let nz := z + d.2.2
  if cfg.periodicBoundaries then
    jsAdd count (cellAt g (wrapC gs nx) (wrapC gs ny) (wrapC gs nz))
  else if nx < 0 ∨ gs ≤ nx ∨ ny < 0 ∨ gs ≤ ny ∨ nz < 0 ∨ gs ≤ nz then
    count
  else
    jsAdd count (cellAt g nx ny nz)

/-- Method `countNeighbors(grid, x, y, z)`: fold the loop body over the 26
offsets starting from `count = 0`. -/
def countNeighbors (cfg : GameOfLife3DConfig) (g : Grid3D)
    (x y z : Int) : Option Int :=
  neighborOffsets.foldl (neighborStep cfg g x y z) (some 0)

/-- Method `applyCellRule(isCurrentlyAlive, neighborCount)`: survival inside
`[survivalMin, survivalMax]` for live cells, exact `birthRule` match for
dead cells.  The neighbor count is a JS number, hence `Option Int`. -/
def applyCellRule (cfg : GameOfLife3DConfig) (isCurrentlyAlive : Bool)
    (neighborCount : Option Int) : Bool :=
  if isCurrentlyAlive then
    jsGe neighborCount cfg.survivalMin && jsLe neighborCount cfg.survivalMax
  else
    jsEq neighborCount cfg.birthRule

/-- Method `step(currentGrid)`: the JS loop assigns every cell of a fresh empty
grid `applyCellRule(currentGrid[x][y][z] === 1, countNeighbors(...)) ? 1 : 0`,
reading only `currentGrid`; modelled as a nested tabulation. -/
def step (cfg : GameOfLife3DConfig) (currentGrid : Grid3D) : Grid3D :=
  gridTabulate cfg.gridSize fun x y z =>
    let neighbors := countNeighbors cfg currentGrid x y z
    let isCurrentlyAlive := jsEq (cellAt currentGrid x y z) 1
    if applyCellRule cfg isCurrentlyAlive neighbors then 1 else 0

/-- Method `countLivingCells(grid)`: `count += grid[x][y][z]` over the triple
loop, starting from 0. -/
def countLivingCells (cfg : GameOfLife3DConfig) (g : Grid3D) : Option Int :=
  (List.range cfg.gridSize).foldl (fun count (x : Nat) =>
    (List.range cfg.gridSize).foldl (fun count (y : Nat) =>
      (List.range cfg.gridSize).foldl (fun count (z : Nat) =>
        jsAdd count (cellAt g x y z)) count) count) (some 0)

/-- Method `gridsEqual(grid1, grid2)`: returns false on the first position in the
configured `gridSize` region where `grid1[x][y][z] !== grid2[x][y][z]`,
true otherwise.  Note the loops never look at the dimensions of the grids themselves. -/
def gridsEqual (cfg : GameOfLife3DConfig) (g1 g2 : Grid3D) : Bool :=
  (List.range cfg.gridSize).all fun (x : Nat) =>
    (List.range cfg.gridSize).all fun (y : Nat) =>
      (List.range cfg.gridSize).all fun (z : Nat) =>
        cellAt g1 x y z == cellAt g2 x y z

/-- The in-range write `grid[x][y][z] = v` (no-op shy of a full row, which
the bounds check of `setCell` rules out on grids covering the region). -/
def set3 (g : Grid3D) (x y z : Nat) (v : Int) : Grid3D :=
  match g[x]? with
  | none => g
  | some plane =>
    match plane[y]? with
    | none => g
    | some row => g.set x (plane.set y (row.set z v))

/-- Method `setCell(grid, x, y, z, value)`: bounds-checked write; out-of-range
coordinates leave the grid untouched. -/
def setCell (cfg : GameOfLife3DConfig) (g : Grid3D) (x y z : Int)
    (v : Int) : Grid3D :=
  let gs : Int := cfg.gridSize
  if 0 ≤ x ∧ x < gs ∧ 0 ≤ y ∧ y < gs ∧ 0 ≤ z ∧ z < gs then
    set3 g x.toNat y.toNat z.toNat v
  else g

/-- Method `getCell(grid, x, y, z)`: bounds-checked read; out-of-range
coordinates return 0. -/
def getCell (cfg : GameOfLife3DConfig) (g : Grid3D) (x y z : Int) :
    Option Int :=
  let gs : Int := cfg.gridSize
  if 0 ≤ x ∧ x < gs ∧ 0 ≤ y ∧ y < gs ∧ 0 ≤ z ∧ z < gs then
    cellAt g x y z
  else some 0

/-- The neighbor state contributed by one offset, as the spec describes it:
the cell at the wrapped coordinates when periodic, the in-range cell (or
nothing) when non-periodic. -/
def specNeighborVal (cfg : GameOfLife3DConfig) (g : Grid3D) (x y z : Int)
    (d : Int × Int × Int) : Int :=
  let gs : Int := cfg.gridSize
  let nx := x + d.1
  let ny := y + d.2.1
  let nz := z + d.2.2
  if cfg.periodicBoundaries then
    (cellAt g (wrapC gs nx) (wrapC gs ny) (wrapC gs nz)).getD 0
  else if nx < 0 ∨ gs ≤ nx ∨ ny < 0 ∨ gs ≤ ny ∨ nz < 0 ∨ gs ≤ nz then
    0
  else
    (cellAt g nx ny nz).getD 0

/-- The sum over the 26 offsets of the neighbor states, the value the spec
says `countNeighbors` returns. -/
def specNeighborSum (cfg : GameOfLife3DConfig) (g : Grid3D)
    (x y z : Int) : Int :=
  (neighborOffsets.map (specNeighborVal cfg g x y z)).sum

/-- The cell read performed for one offset (in the branch actually taken)
hits a populated cell. -/
def accessOk (cfg : GameOfLife3DConfig) (g : Grid3D) (x y z : Int)
    (d : Int × Int × Int) : Prop :=
  let gs : Int := cfg.gridSize
  let nx := x + d.1
  let ny := y + d.2.1
  let nz := z + d.2.2
  if cfg.periodicBoundaries then
    (cellAt g (wrapC gs nx) (wrapC gs ny) (wrapC gs nz)).isSome = true
  else
    ¬(nx < 0 ∨ gs ≤ nx ∨ ny < 0 ∨ gs ≤ ny ∨ nz < 0 ∨ gs ≤ nz) →
      (cellAt g nx ny nz).isSome = true

/-- The grid is a fully populated cube of edge `n`. -/
def wellFormedGrid (n : Nat) (g : Grid3D) : Prop :=
  g.length = n ∧ ∀ p ∈ g, p.length = n ∧ ∀ r ∈ p, r.length = n

/-- Every cell of the grid is 0 or 1. -/
def binaryGrid (g : Grid3D) : Prop :=
  ∀ p ∈ g, ∀ r ∈ p, ∀ v ∈ r, v = 0 ∨ v = 1

/-- The grid covers at least the `n` cube region, so every read the engine
performs inside that region hits a populated cell. -/
def coversRegion (n : Nat) (g : Grid3D) : Prop :=
  n ≤ g.length ∧ ∀ p ∈ g, n ≤ p.length ∧ ∀ r ∈ p, n ≤ r.length

instance (n : Nat) (g : Grid3D) : Decidable (wellFormedGrid n g) := by
  unfold wellFormedGrid; infer_instance

instance (g : Grid3D) : Decidable (binaryGrid g) := by
  unfold binaryGrid; infer_instance

instance (n : Nat) (g : Grid3D) : Decidable (coversRegion n g) := by
  unfold coversRegion; infer_instance

/-- A `Partial<GameOfLife3DConfig>`: each field optionally present. -/
structure PartialGameConfig where
  gridSize : Option Nat := none
  birthRule : Option Int := none
  survivalMin : Option Int := none
  survivalMax : Option Int := none
  periodicBoundaries : Option Bool := none

/-- Method `updateConfig(newConfig)`: the spread `{...this.config, ...newConfig}`
keeps each field absent from `newConfig` and overwrites each present one. -/
def updateConfig (c : GameOfLife3DConfig) (p : PartialGameConfig) :
    GameOfLife3DConfig :=
  { gridSize := p.gridSize.getD c.gridSize
    birthRule := p.birthRule.getD c.birthRule
    survivalMin := p.survivalMin.getD c.survivalMin
    survivalMax := p.survivalMax.getD c.survivalMax
    periodicBoundaries := p.periodicBoundaries.getD c.periodicBoundaries }

/-! Object-level model for the aliasing claims: grids (resp. config
objects) live in a store of objects, a reference is an index, allocation
appends, and an assignment overwrites one slot.  `step` allocates a fresh
grid via `createEmptyGrid`, writes every next-generation cell into it and
returns it, only reading the argument grid; `getConfig` allocates a fresh
object holding a copy of the configuration fields of the engine and returns
it. -/

abbrev GridStore := List Grid3D

def storeAlloc (s : GridStore) (g : Grid3D) : GridStore × Nat :=
  (s ++ [g], s.length)

def storeWrite (s : GridStore) (r : Nat) (g : Grid3D) : GridStore :=
  s.set r g

def storeRead (s : GridStore) (r : Nat) : Grid3D :=
  (s[r]?).getD []

/-- Method `step` at the object level: read the argument grid, allocate the fresh
empty grid, fill it with the next generation, return its reference. -/
def stepRef (cfg : GameOfLife3DConfig) (s : GridStore) (r : Nat) :
    GridStore × Nat :=
  let g := storeRead s r
  let alloc := storeAlloc s (createEmptyGrid cfg)
  (storeWrite alloc.1 alloc.2 (step cfg g), alloc.2)

abbrev ConfigStore := List GameOfLife3DConfig

def cstoreAlloc (s : ConfigStore) (c : GameOfLife3DConfig) :
    ConfigStore × Nat :=
  (s ++ [c], s.length)

def cstoreWrite (s : ConfigStore) (r : Nat) (c : GameOfLife3DConfig) :
    ConfigStore := s.set r c

/-- Method `getConfig()` at the object level: `return {...this.config}` allocates
a fresh object carrying the same field values and returns its reference,
leaving the configuration object of the engine (slot `r`) in place. -/
def getConfigRef (s : ConfigStore) (r : Nat) : ConfigStore × Nat :=
  cstoreAlloc s ((s[r]?).getD ⟨0, 0, 0, 0, false⟩)

/-! Concrete instances used by witnesses and counterexamples. -/

/-- The test-suite configuration, periodic. -/
def cfg5p : GameOfLife3DConfig := ⟨5, 4, 4, 5, true⟩

/-- The test-suite configuration, non-periodic. -/
def cfg5n : GameOfLife3DConfig := ⟨5, 4, 4, 5, false⟩

/-- Size-5 grid holding a single live cell at the origin. -/
def grid5single : Grid3D := set3 (createEmptyGrid cfg5p) 0 0 0 1

/-- A size-1 periodic configuration. -/
def cfg1w : GameOfLife3DConfig := ⟨1, 4, 4, 5, true⟩

/-- A size-2 periodic configuration. -/
def cfg2w : GameOfLife3DConfig := ⟨2, 4, 4, 5, true⟩

/-- Size-2 grid holding a single live cell at (1,0,0). -/
def grid2single : Grid3D := set3 (createEmptyGrid cfg2w) 1 0 0 1

/-- A configuration whose `birthRule` is 0 (in the documented [0,26]
range). -/
def cfgB0 : GameOfLife3DConfig := ⟨1, 0, 2, 3, false⟩

/-- A 1-cube grid of zeros. -/
def gridOne : Grid3D := [[[0]]]

/-- A 2-cube grid of zeros. -/
def gridTwoCube : Grid3D := createEmptyGrid ⟨2, 4, 4, 5, true⟩

/-! Access lemmas. -/

theorem listGetI_natCast (l : List α) (i : Nat) :
    listGetI l (i : Int) = l[i]? := by
  simp [listGetI]

theorem cellAt_natCast (g : Grid3D) (x y z : Nat) :
    cellAt g x y z =
      g[x]?.bind fun p => p[y]?.bind fun r => r[z]? := by
  simp [cellAt, listGetI_natCast]

theorem cellAt_pieces_of_wf {n : Nat} {g : Grid3D}
    (wf : wellFormedGrid n g) {x y z : Nat}
    (hx : x < n) (hy : y < n) (hz : z < n) :
    ∃ p r v, g[x]? = some p ∧ p[y]? = some r ∧ r[z]? = some v ∧
      cellAt g x y z = some v ∧ p ∈ g ∧ r ∈ p ∧ v ∈ r := by
  obtain ⟨hg, hplanes⟩ := wf
  have hx' : x < g.length := by omega
  have hpmem : g[x] ∈ g := List.getElem_mem hx'
  have hy' : y < g[x].length := by
    have := (hplanes _ hpmem).1; omega
  have hrmem : g[x][y] ∈ g[x] := List.getElem_mem hy'
  have hz' : z < g[x][y].length := by
    have := (hplanes _ hpmem).2 _ hrmem; omega
  refine ⟨g[x], g[x][y], g[x][y][z],
    List.getElem?_eq_getElem hx', List.getElem?_eq_getElem hy',
    List.getElem?_eq_getElem hz', ?_, hpmem, hrmem, List.getElem_mem hz'⟩
  rw [cellAt_natCast]
  simp [List.getElem?_eq_getElem, hx', hy', hz']

theorem cellAt_binary_of_wf {n : Nat} {g : Grid3D}
    (wf : wellFormedGrid n g) (bin : binaryGrid g) {x y z : Nat}
    (hx : x < n) (hy : y < n) (hz : z < n) :
    ∃ v, cellAt g x y z = some v ∧ (v = 0 ∨ v = 1) := by
  obtain ⟨p, r, v, _, _, _, hc, hp, hr, hv⟩ :=
    cellAt_pieces_of_wf wf hx hy hz
  exact ⟨v, hc, bin p hp r hr v hv⟩

theorem cellAt_pieces_of_covers {n : Nat} {g : Grid3D}
    (cov : coversRegion n g) {x y z : Nat}
    (hx : x < n) (hy : y < n) (hz : z < n) :
    ∃ v, cellAt g x y z = some v := by
  obtain ⟨hg, hplanes⟩ := cov
  have hx' : x < g.length := by omega
  have hpmem : g[x] ∈ g := List.getElem_mem hx'
  have hy' : y < g[x].length := by
    have := (hplanes _ hpmem).1; omega
  have hrmem : g[x][y] ∈ g[x] := List.getElem_mem hy'
  have hz' : z < g[x][y].length := by
    have := (hplanes _ hpmem).2 _ hrmem; omega
  refine ⟨g[x][y][z], ?_⟩
  rw [cellAt_natCast]
  simp [List.getElem?_eq_getElem, hx', hy', hz']

theorem cellAt_createEmptyGrid (cfg : GameOfLife3DConfig) {x y z : Nat}
    (hx : x < cfg.gridSize) (hy : y < cfg.gridSize)
    (hz : z < cfg.gridSize) :
    cellAt (createEmptyGrid cfg) x y z = some 0 := by
  rw [cellAt_natCast]
  simp [createEmptyGrid, List.getElem?_replicate, hx, hy, hz]

/-! Tabulation lemmas. -/

theorem getElem?_map_range {α : Type} {n i : Nat} (f : Nat → α)
    (h : i < n) : ((List.range n).map f)[i]? = some (f i) := by
  simp [List.getElem?_map, List.getElem?_range, h]

theorem gridTabulate_wf (n : Nat) (F : Nat → Nat → Nat → Int) :
    wellFormedGrid n (gridTabulate n F) := by
  refine ⟨by simp [gridTabulate], ?_⟩
  intro p hp
  rw [gridTabulate, List.mem_map] at hp
  obtain ⟨x, _, rfl⟩ := hp
  refine ⟨by simp, ?_⟩
  intro r hr
  rw [List.mem_map] at hr
  obtain ⟨y, _, rfl⟩ := hr
  simp

theorem gridTabulate_binary (n : Nat) (F : Nat → Nat → Nat → Int)
    (h : ∀ x y z, F x y z = 0 ∨ F x y z = 1) :
    binaryGrid (gridTabulate n F) := by
  intro p hp
  rw [gridTabulate, List.mem_map] at hp
  obtain ⟨x, _, rfl⟩ := hp
  intro r hr
  rw [List.mem_map] at hr
  obtain ⟨y, _, rfl⟩ := hr
  intro v hv
  rw [List.mem_map] at hv
  obtain ⟨z, _, rfl⟩ := hv
  exact h x y z

theorem cellAt_gridTabulate {n : Nat} (F : Nat → Nat → Nat → Int)
    {x y z : Nat} (hx : x < n) (hy : y < n) (hz : z < n) :
    cellAt (gridTabulate n F) x y z = some (F x y z) := by
  rw [cellAt_natCast, gridTabulate]
  simp [getElem?_map_range, hx, hy, hz]

/-! `gridsEqual` as a region-wise property. -/

theorem gridsEqual_iff (cfg : GameOfLife3DConfig) (g1 g2 : Grid3D) :
    gridsEqual cfg g1 g2 = true ↔
      ∀ x < cfg.gridSize, ∀ y < cfg.gridSize, ∀ z < cfg.gridSize,
        cellAt g1 x y z = cellAt g2 x y z := by
  simp [gridsEqual, List.all_eq_true, List.mem_range]

/-! The `countNeighbors` fold as a sum. -/

theorem neighborStep_eq {cfg : GameOfLife3DConfig} {g : Grid3D}
    {x y z : Int} {d : Int × Int × Int}
    (h : accessOk cfg g x y z d) (a : Int) :
    neighborStep cfg g x y z (some a) d =
      some (a + specNeighborVal cfg g x y z d) := by
  unfold neighborStep specNeighborVal
  unfold accessOk at h
  cases hpb : cfg.periodicBoundaries with
  | false =>
    simp only [hpb, Bool.false_eq_true, if_false] at h ⊢
    by_cases hoob : x + d.1 < 0 ∨ (cfg.gridSize : Int) ≤ x + d.1 ∨
        y + d.2.1 < 0 ∨ (cfg.gridSize : Int) ≤ y + d.2.1 ∨
        z + d.2.2 < 0 ∨ (cfg.gridSize : Int) ≤ z + d.2.2
    · simp [hoob]
    · obtain ⟨v, hv⟩ := Option.isSome_iff_exists.mp (h hoob)
      simp [hoob, hv, jsAdd]
  | true =>
    simp only [hpb, if_true] at h ⊢
    obtain ⟨v, hv⟩ := Option.isSome_iff_exists.mp h
    simp [hv, jsAdd]

theorem foldl_neighborStep {cfg : GameOfLife3DConfig} {g : Grid3D}
    {x y z : Int} (l : List (Int × Int × Int))
    (h : ∀ d ∈ l, accessOk cfg g x y z d) (a : Int) :
    l.foldl (neighborStep cfg g x y z) (some a) =
      some (a + (l.map (specNeighborVal cfg g x y z)).sum) := by
  induction l generalizing a with
  | nil => simp
  | cons d rest ih =>
    rw [List.foldl_cons, neighborStep_eq (h d (by simp)) a,
      ih (fun e he => h e (by simp [he]))]
    simp [add_assoc]

theorem countNeighbors_eq_sum {cfg : GameOfLife3DConfig} {g : Grid3D}
    {x y z : Int}
    (h : ∀ d ∈ neighborOffsets, accessOk cfg g x y z d) :
    countNeighbors cfg g x y z = some (specNeighborSum cfg g x y z) := by
  rw [countNeighbors, foldl_neighborStep neighborOffsets h 0,
    specNeighborSum, zero_add]

theorem neighborOffsets_mem_bounds :
    ∀ d ∈ neighborOffsets,
      (-1 ≤ d.1 ∧ d.1 ≤ 1) ∧ (-1 ≤ d.2.1 ∧ d.2.1 ≤ 1) ∧
        (-1 ≤ d.2.2 ∧ d.2.2 ≤ 1) := by decide

theorem neighborOffsets_length : neighborOffsets.length = 26 := by decide

/-! In-range reads with integer coordinates. -/

theorem cellAt_int_eq_nat {g : Grid3D} {x y z : Int}
    (hx : 0 ≤ x) (hy : 0 ≤ y) (hz : 0 ≤ z) :
    cellAt g x y z = cellAt g x.toNat y.toNat z.toNat := by
  rw [show x = ((x.toNat : Nat) : Int) from (Int.toNat_of_nonneg hx).symm,
    show y = ((y.toNat : Nat) : Int) from (Int.toNat_of_nonneg hy).symm,
    show z = ((z.toNat : Nat) : Int) from (Int.toNat_of_nonneg hz).symm]
  simp

theorem cellAt_isSome_of_wf_int {n : Nat} {g : Grid3D}
    (wf : wellFormedGrid n g) {x y z : Int}
    (hx : 0 ≤ x) (hx2 : x < (n : Int)) (hy : 0 ≤ y) (hy2 : y < (n : Int))
    (hz : 0 ≤ z) (hz2 : z < (n : Int)) :
    ∃ v, cellAt g x y z = some v := by
  rw [cellAt_int_eq_nat hx hy hz]
  obtain ⟨p, r, v, _, _, _, hc, _⟩ :=
    cellAt_pieces_of_wf wf (x := x.toNat) (y := y.toNat) (z := z.toNat)
      (by omega) (by omega) (by omega)
  exact ⟨v, hc⟩

theorem cellAt_binary_of_wf_int {n : Nat} {g : Grid3D}
    (wf : wellFormedGrid n g) (bin : binaryGrid g) {x y z : Int}
    (hx : 0 ≤ x) (hx2 : x < (n : Int)) (hy : 0 ≤ y) (hy2 : y < (n : Int))
    (hz : 0 ≤ z) (hz2 : z < (n : Int)) :
    ∃ v, cellAt g x y z = some v ∧ (v = 0 ∨ v = 1) := by
  rw [cellAt_int_eq_nat hx hy hz]
  exact cellAt_binary_of_wf wf bin (by omega) (by omega) (by omega)

theorem wrapC_range {gs c : Int} (hgs : 0 < gs) (hc : 0 ≤ c + gs) :
    0 ≤ wrapC gs c ∧ wrapC gs c < gs := by
  unfold wrapC
  exact ⟨Int.tmod_nonneg gs hc, Int.tmod_lt_of_pos _ hgs⟩

theorem accessOk_of_wf {cfg : GameOfLife3DConfig} {g : Grid3D}
    (wf : wellFormedGrid cfg.gridSize g) {x y z : Int}
    (hx : 0 ≤ x) (hx2 : x < (cfg.gridSize : Int))
    (hy : 0 ≤ y) (hy2 : y < (cfg.gridSize : Int))
    (hz : 0 ≤ z) (hz2 : z < (cfg.gridSize : Int)) :
    ∀ d ∈ neighborOffsets, accessOk cfg g x y z d := by
  intro d hd
  obtain ⟨⟨hd1, _⟩, ⟨hd2, _⟩, ⟨hd3, _⟩⟩ := neighborOffsets_mem_bounds d hd
  have hgs : 0 < (cfg.gridSize : Int) := lt_of_le_of_lt hx hx2
  unfold accessOk
  cases hpb : cfg.periodicBoundaries with
  | false =>
    simp only [hpb, Bool.false_eq_true, if_false]
    intro hoob
    push_neg at hoob
    obtain ⟨v, hv⟩ := cellAt_isSome_of_wf_int wf
      (x := x + d.1) (y := y + d.2.1) (z := z + d.2.2)
      (by omega) (by omega) (by omega) (by omega) (by omega) (by omega)
    simp [hv]
  | true =>
    simp only [hpb, if_true]
    obtain ⟨hwx1, hwx2⟩ := wrapC_range (c := x + d.1) hgs (by omega)
    obtain ⟨hwy1, hwy2⟩ := wrapC_range (c := y + d.2.1) hgs (by omega)
    obtain ⟨hwz1, hwz2⟩ := wrapC_range (c := z + d.2.2) hgs (by omega)
    obtain ⟨v, hv⟩ := cellAt_isSome_of_wf_int wf hwx1 hwx2 hwy1 hwy2 hwz1 hwz2
    simp [hv]

theorem specNeighborVal_bounds {cfg : GameOfLife3DConfig} {g : Grid3D}
    (wf : wellFormedGrid cfg.gridSize g) (bin : binaryGrid g) {x y z : Int}
    (hx : 0 ≤ x) (hx2 : x < (cfg.gridSize : Int))
    (hy : 0 ≤ y) (hy2 : y < (cfg.gridSize : Int))
    (hz : 0 ≤ z) (hz2 : z < (cfg.gridSize : Int)) :
    ∀ d ∈ neighborOffsets,
      0 ≤ specNeighborVal cfg g x y z d ∧
        specNeighborVal cfg g x y z d ≤ 1 := by
  intro d hd
  obtain ⟨⟨hd1, _⟩, ⟨hd2, _⟩, ⟨hd3, _⟩⟩ := neighborOffsets_mem_bounds d hd
  have hgs : 0 < (cfg.gridSize : Int) := lt_of_le_of_lt hx hx2
  unfold specNeighborVal
  cases hpb : cfg.periodicBoundaries with
  | false =>
    simp only [hpb, Bool.false_eq_true, if_false]
    by_cases hoob : x + d.1 < 0 ∨ (cfg.gridSize : Int) ≤ x + d.1 ∨
        y + d.2.1 < 0 ∨ (cfg.gridSize : Int) ≤ y + d.2.1 ∨
        z + d.2.2 < 0 ∨ (cfg.gridSize : Int) ≤ z + d.2.2
    · simp [hoob]
    · push_neg at hoob
      obtain ⟨v, hv, hv01⟩ := cellAt_binary_of_wf_int wf bin
        (x := x + d.1) (y := y + d.2.1) (z := z + d.2.2)
        (by omega) (by omega) (by omega) (by omega) (by omega) (by omega)
      rw [if_neg ?_, hv]
      · simp only [Option.getD_some]
        omega
      · push_neg
        exact hoob
  | true =>
    obtain ⟨hwx1, hwx2⟩ := wrapC_range (c := x + d.1) hgs (by omega)
    obtain ⟨hwy1, hwy2⟩ := wrapC_range (c := y + d.2.1) hgs (by omega)
    obtain ⟨hwz1, hwz2⟩ := wrapC_range (c := z + d.2.2) hgs (by omega)
    obtain ⟨v, hv, hv01⟩ :=
      cellAt_binary_of_wf_int wf bin hwx1 hwx2 hwy1 hwy2 hwz1 hwz2
    simp [hpb, hv]
    omega

theorem list_sum_bounds (l : List Int)
    (h : ∀ v ∈ l, 0 ≤ v ∧ v ≤ 1) :
    0 ≤ l.sum ∧ l.sum ≤ (l.length : Int) := by
  induction l with
  | nil => simp
  | cons a t ih =>
    obtain ⟨ha1, ha2⟩ := h a (by simp)
    obtain ⟨ih1, ih2⟩ := ih fun v hv => h v (by simp [hv])
    simp only [List.sum_cons, List.length_cons]
    push_cast
    omega

/-! Facts about the empty grid. -/

theorem wellFormed_createEmptyGrid (cfg : GameOfLife3DConfig) :
    wellFormedGrid cfg.gridSize (createEmptyGrid cfg) := by
  refine ⟨by simp [createEmptyGrid], ?_⟩
  intro p hp
  rw [createEmptyGrid] at hp
  obtain rfl := List.eq_of_mem_replicate hp
  refine ⟨by simp, ?_⟩
  intro r hr
  obtain rfl := List.eq_of_mem_replicate hr
  simp

theorem createEmptyGrid_cells_zero (cfg : GameOfLife3DConfig) :
    ∀ p ∈ createEmptyGrid cfg, ∀ r ∈ p, ∀ v ∈ r, v = 0 := by
  intro p hp r hr v hv
  rw [createEmptyGrid] at hp
  obtain rfl := List.eq_of_mem_replicate hp
  obtain rfl := List.eq_of_mem_replicate hr
  exact List.eq_of_mem_replicate hv

theorem binary_createEmptyGrid (cfg : GameOfLife3DConfig) :
    binaryGrid (createEmptyGrid cfg) := by
  intro p hp r hr v hv
  exact Or.inl (createEmptyGrid_cells_zero cfg p hp r hr v hv)

/-! Fold helpers. -/

theorem jsAdd_some_zero (c : Option Int) : jsAdd c (some 0) = c := by
  cases c <;> simp [jsAdd]

theorem foldl_congr_id {α : Type} (l : List α)
    (f : Option Int → α → Option Int)
    (h : ∀ c a, a ∈ l → f c a = c) :
    ∀ c, l.foldl f c = c := by
  induction l with
  | nil => intro c; simp
  | cons a t ih =>
    intro c
    rw [List.foldl_cons, h c a (by simp)]
    exact ih (fun c b hb => h c b (by simp [hb])) c

/-! Reads through `List.set`. -/

theorem listGetI_set_ne {α : Type} (l : List α) (i : Nat) (a : α)
    {j : Int} (h : j ≠ (i : Int)) :
    listGetI (l.set i a) j = listGetI l j := by
  unfold listGetI
  by_cases hj : j < 0
  · simp [hj]
  · have hne : i ≠ j.toNat := by omega
    simp [hj, List.getElem?_set_ne hne]

theorem listGetI_set_self {α : Type} (l : List α) (i : Nat) (a : α)
    (h : i < l.length) :
    listGetI (l.set i a) (i : Int) = some a := by
  rw [listGetI_natCast]
  simp [List.getElem?_set_self, h]

theorem set3_eq {g : Grid3D} {x y : Nat} {p : List (List Int)}
    {r : List Int} (hp : g[x]? = some p) (hr : p[y]? = some r)
    (z : Nat) (v : Int) :
    set3 g x y z v = g.set x (p.set y (r.set z v)) := by
  simp only [set3, hp, hr]

theorem cellAt_set3_same {n : Nat} {g : Grid3D} (wf : wellFormedGrid n g)
    {x y z : Nat} (hx : x < n) (hy : y < n) (hz : z < n) (v : Int) :
    cellAt (set3 g x y z v) x y z = some v := by
  obtain ⟨p, r, w, hp, hr, hw, _, hpmem, hrmem, _⟩ :=
    cellAt_pieces_of_wf wf hx hy hz
  rw [set3_eq hp hr]
  have hxlen : x < g.length := by have := wf.1; omega
  have hylen : y < p.length := by have := (wf.2 p hpmem).1; omega
  have hzlen : z < r.length := by have := (wf.2 p hpmem).2 r hrmem; omega
  unfold cellAt
  rw [listGetI_set_self _ _ _ hxlen, Option.some_bind,
    listGetI_set_self _ _ _ hylen, Option.some_bind,
    listGetI_set_self _ _ _ hzlen]

theorem cellAt_set3_other {n : Nat} {g : Grid3D} (wf : wellFormedGrid n g)
    {x y z : Nat} (hx : x < n) (hy : y < n) (hz : z < n) (v : Int)
    {a b c : Int} (hne : ¬(a = (x : Int) ∧ b = (y : Int) ∧ c = (z : Int))) :
    cellAt (set3 g x y z v) a b c = cellAt g a b c := by
  obtain ⟨p, r, w, hp, hr, hw, _, hpmem, hrmem, _⟩ :=
    cellAt_pieces_of_wf wf hx hy hz
  rw [set3_eq hp hr]
  have hxlen : x < g.length := by have := wf.1; omega
  have hylen : y < p.length := by have := (wf.2 p hpmem).1; omega
  by_cases ha : a = (x : Int)
  · subst ha
    unfold cellAt
    rw [listGetI_set_self _ _ _ hxlen, Option.some_bind,
      listGetI_natCast, hp, Option.some_bind]
    by_cases hb : b = (y : Int)
    · subst hb
      rw [listGetI_set_self _ _ _ hylen, Option.some_bind,
        listGetI_natCast, hr, Option.some_bind]
      have hc : c ≠ (z : Int) := by tauto
      rw [listGetI_set_ne _ _ _ hc]
    · rw [listGetI_set_ne _ _ _ hb]
  · unfold cellAt
    rw [listGetI_set_ne _ _ _ ha]

/-! The claims. -/

/-- C2: `applyCellRule(true, n)` holds exactly when
`survivalMin ≤ n ≤ survivalMax`, and `applyCellRule(false, n)` holds
exactly when `n` equals `birthRule`; the result is a pure function of the
configuration and the two arguments. -/
theorem applyCellRule_spec (cfg : GameOfLife3DConfig) (n : Int) :
    (applyCellRule cfg true (some n) = true ↔
      cfg.survivalMin ≤ n ∧ n ≤ cfg.survivalMax) ∧
    (applyCellRule cfg false (some n) = true ↔ n = cfg.birthRule) := by
  simp [applyCellRule, jsGe, jsLe, jsEq]

/-- C3: on a well-formed 0/1 grid queried in bounds, `countNeighbors`
returns the sum of the 26 neighbor states (wrapped when periodic, skipped
when out of range otherwise), the result lies in [0, 26], and the size-5
single-live-cell corner queries give 1 (periodic) and 0 (non-periodic). -/
theorem countNeighbors_spec (cfg : GameOfLife3DConfig) (g : Grid3D)
    (wf : wellFormedGrid cfg.gridSize g) (bin : binaryGrid g)
    (x y z : Int)
    (hx : 0 ≤ x) (hx2 : x < (cfg.gridSize : Int))
    (hy : 0 ≤ y) (hy2 : y < (cfg.gridSize : Int))
    (hz : 0 ≤ z) (hz2 : z < (cfg.gridSize : Int)) :
    (countNeighbors cfg g x y z = some (specNeighborSum cfg g x y z) ∧
      0 ≤ specNeighborSum cfg g x y z ∧
      specNeighborSum cfg g x y z ≤ 26) ∧
    countNeighbors cfg5p grid5single 4 4 4 = some 1 ∧
    countNeighbors cfg5n grid5single 4 4 4 = some 0 := by
  refine ⟨⟨countNeighbors_eq_sum (accessOk_of_wf wf hx hx2 hy hy2 hz hz2),
    ?_⟩, by decide, by decide⟩
  have hb := specNeighborVal_bounds wf bin hx hx2 hy hy2 hz hz2
  have hsum := list_sum_bounds
    (neighborOffsets.map (specNeighborVal cfg g x y z)) (by
      intro v hv
      rw [List.mem_map] at hv
      obtain ⟨d, hd, rfl⟩ := hv
      exact hb d hd)
  rw [specNeighborSum]
  refine ⟨hsum.1, le_trans hsum.2 ?_⟩
  simp [neighborOffsets_length]

/-- Witness for C3 at the example given in the spec: the size-5 grid with one
live cell at the origin, queried at the opposite corner. -/
theorem countNeighbors_spec_witness :
    countNeighbors cfg5p grid5single 4 4 4 =
      some (specNeighborSum cfg5p grid5single 4 4 4) ∧
    specNeighborSum cfg5p grid5single 4 4 4 = 1 := by
  refine ⟨((countNeighbors_spec cfg5p grid5single (by decide) (by decide)
    4 4 4 (by decide) (by decide) (by decide) (by decide) (by decide)
    (by decide)).1).1, by decide⟩

/-- C10: with periodic boundaries wrapped neighbor coordinates can
coincide with the queried cell or with each other: at `gridSize = 1` the
count is 26 times the state of the cell itself, and at `gridSize = 2` a grid with
exactly one live cell yields a count of 2 at (0,0,0), exceeding the number
of distinct live neighboring cells. -/
theorem countNeighbors_wrap_coincidence :
    (∀ (cfg : GameOfLife3DConfig) (v : Int), cfg.gridSize = 1 →
      cfg.periodicBoundaries = true →
      countNeighbors cfg [[[v]]] 0 0 0 = some (26 * v)) ∧
    countLivingCells cfg2w grid2single = some 1 ∧
    countNeighbors cfg2w grid2single 0 0 0 = some 2 := by
  refine ⟨?_, by decide, by decide⟩
  intro cfg v h1 hpb
  have wf : wellFormedGrid cfg.gridSize [[[v]]] := by
    rw [h1]
    refine ⟨rfl, ?_⟩
    intro p hp
    simp only [List.mem_singleton] at hp
    subst hp
    refine ⟨rfl, ?_⟩
    intro r hr
    simp only [List.mem_singleton] at hr
    subst hr
    rfl
  have hlt : (0 : Int) < (cfg.gridSize : Int) := by
    rw [h1]; norm_num
  have hacc := accessOk_of_wf wf (x := 0) (y := 0) (z := 0)
    le_rfl hlt le_rfl hlt le_rfl hlt
  rw [countNeighbors_eq_sum hacc]
  congr 1
  have hval : ∀ d ∈ neighborOffsets,
      specNeighborVal cfg [[[v]]] 0 0 0 d = v := by
    intro d hd
    unfold specNeighborVal
    simp only [hpb, if_true]
    have w1 : wrapC (cfg.gridSize : Int) (0 + d.1) = 0 := by
      rw [h1]; unfold wrapC; push_cast; exact Int.tmod_one _
    have w2 : wrapC (cfg.gridSize : Int) (0 + d.2.1) = 0 := by
      rw [h1]; unfold wrapC; push_cast; exact Int.tmod_one _
    have w3 : wrapC (cfg.gridSize : Int) (0 + d.2.2) = 0 := by
      rw [h1]; unfold wrapC; push_cast; exact Int.tmod_one _
    rw [w1, w2, w3]
    rfl
  rw [specNeighborSum, List.sum_eq_card_nsmul _ v (by
    intro m hm
    rw [List.mem_map] at hm
    obtain ⟨d, hd, rfl⟩ := hm
    exact hval d hd)]
  simp [neighborOffsets_length]

/-- Witness for C10: a live cell alone in a periodic 1-cube counts itself
26 times. -/
theorem countNeighbors_wrap_coincidence_witness :
    countNeighbors cfg1w [[[1]]] 0 0 0 = some 26 := by
  have h := countNeighbors_wrap_coincidence.1 cfg1w 1 rfl rfl
  simpa using h

theorem specNeighborVal_empty (cfg : GameOfLife3DConfig) {x y z : Int}
    (hx : 0 ≤ x) (hx2 : x < (cfg.gridSize : Int))
    (hy : 0 ≤ y) (hy2 : y < (cfg.gridSize : Int))
    (hz : 0 ≤ z) (hz2 : z < (cfg.gridSize : Int)) :
    ∀ d ∈ neighborOffsets,
      specNeighborVal cfg (createEmptyGrid cfg) x y z d = 0 := by
  intro d hd
  obtain ⟨⟨hd1, _⟩, ⟨hd2, _⟩, ⟨hd3, _⟩⟩ := neighborOffsets_mem_bounds d hd
  have hgs : 0 < (cfg.gridSize : Int) := lt_of_le_of_lt hx hx2
  unfold specNeighborVal
  cases hpb : cfg.periodicBoundaries with
  | false =>
    simp only [hpb, Bool.false_eq_true, if_false]
    by_cases hoob : x + d.1 < 0 ∨ (cfg.gridSize : Int) ≤ x + d.1 ∨
        y + d.2.1 < 0 ∨ (cfg.gridSize : Int) ≤ y + d.2.1 ∨
        z + d.2.2 < 0 ∨ (cfg.gridSize : Int) ≤ z + d.2.2
    · simp [hoob]
    · have hoob' := hoob
      push_neg at hoob'
      have hc : cellAt (createEmptyGrid cfg) (x + d.1) (y + d.2.1)
          (z + d.2.2) = some 0 := by
        rw [cellAt_int_eq_nat (by omega) (by omega) (by omega)]
        exact cellAt_createEmptyGrid cfg (by omega) (by omega) (by omega)
      rw [if_neg hoob, hc]
      rfl
  | true =>
    simp only [hpb, if_true]
    obtain ⟨hwx1, hwx2⟩ := wrapC_range (c := x + d.1) hgs (by omega)
    obtain ⟨hwy1, hwy2⟩ := wrapC_range (c := y + d.2.1) hgs (by omega)
    obtain ⟨hwz1, hwz2⟩ := wrapC_range (c := z + d.2.2) hgs (by omega)
    have hc : cellAt (createEmptyGrid cfg) (wrapC (cfg.gridSize : Int)
        (x + d.1)) (wrapC (cfg.gridSize : Int) (y + d.2.1))
        (wrapC (cfg.gridSize : Int) (z + d.2.2)) = some 0 := by
      rw [cellAt_int_eq_nat hwx1 hwy1 hwz1]
      exact cellAt_createEmptyGrid cfg (by omega) (by omega) (by omega)
    rw [hc]
    rfl

/-- C5 (amended): for every configuration whose `birthRule` is at least 1
(the documented ranges otherwise unrestricted), stepping the all-dead grid
yields the all-dead grid under `gridsEqual`.  With `birthRule = 0` the
code instead births every cell (see the counterexample). -/
theorem step_empty_fixed (cfg : GameOfLife3DConfig)
    (hb1 : 1 ≤ cfg.birthRule) (hb2 : cfg.birthRule ≤ 26) :
    gridsEqual cfg (step cfg (createEmptyGrid cfg))
      (createEmptyGrid cfg) = true := by
  rw [gridsEqual_iff]
  intro x hx y hy z hz
  rw [cellAt_createEmptyGrid cfg hx hy hz, step,
    cellAt_gridTabulate _ hx hy hz]
  have wfE := wellFormed_createEmptyGrid cfg
  have hxi : (0 : Int) ≤ (x : Int) := Int.natCast_nonneg x
  have hyi : (0 : Int) ≤ (y : Int) := Int.natCast_nonneg y
  have hzi : (0 : Int) ≤ (z : Int) := Int.natCast_nonneg z
  have hacc := accessOk_of_wf wfE (x := (x : Int)) (y := (y : Int))
    (z := (z : Int)) hxi (by exact_mod_cast hx) hyi (by exact_mod_cast hy)
    hzi (by exact_mod_cast hz)
  have hcnt : countNeighbors cfg (createEmptyGrid cfg) x y z = some 0 := by
    rw [countNeighbors_eq_sum hacc, specNeighborSum]
    congr 1
    apply List.sum_eq_zero
    intro m hm
    rw [List.mem_map] at hm
    obtain ⟨d, hd, rfl⟩ := hm
    exact specNeighborVal_empty cfg hxi (by exact_mod_cast hx) hyi
      (by exact_mod_cast hy) hzi (by exact_mod_cast hz) d hd
  have hcell : cellAt (createEmptyGrid cfg) x y z = some 0 :=
    cellAt_createEmptyGrid cfg hx hy hz
  simp only [hcnt, hcell, applyCellRule, jsEq]
  have : ¬((0 : Int) = cfg.birthRule) := by omega
  simp [this]

/-- Witness for the amended statement of C5 at the size-2 periodic
configuration with birthRule 4. -/
theorem step_empty_fixed_witness :
    gridsEqual cfg2w (step cfg2w (createEmptyGrid cfg2w))
      (createEmptyGrid cfg2w) = true :=
  step_empty_fixed cfg2w (by decide) (by decide)

/-- C5 counterexample: `birthRule = 0` lies in the documented [0,26]
range, yet every dead cell then has exactly `birthRule` neighbors in the
empty grid, so `step` births every cell and the result is not the empty
grid. -/
theorem step_empty_counterexample :
    (0 ≤ cfgB0.birthRule ∧ cfgB0.birthRule ≤ 26 ∧
      0 ≤ cfgB0.survivalMin ∧ cfgB0.survivalMin ≤ 26 ∧
      0 ≤ cfgB0.survivalMax ∧ cfgB0.survivalMax ≤ 26 ∧
      0 < cfgB0.gridSize) ∧
    gridsEqual cfgB0 (step cfgB0 (createEmptyGrid cfgB0))
      (createEmptyGrid cfgB0) = false := by decide

/-- C1: on a well-formed 0/1 grid matching the configured `gridSize`,
`step` returns a grid of the same cubic dimension whose cell at every
in-bounds (x,y,z) is 1 exactly when
`applyCellRule(grid[x][y][z] === 1, countNeighbors(grid, x, y, z))` holds,
both evaluated on the unmodified input grid (simultaneous update). -/
theorem step_spec (cfg : GameOfLife3DConfig) (g : Grid3D)
    (wf : wellFormedGrid cfg.gridSize g) (bin : binaryGrid g) :
    wellFormedGrid cfg.gridSize (step cfg g) ∧
    ∀ x < cfg.gridSize, ∀ y < cfg.gridSize, ∀ z < cfg.gridSize,
      (cellAt (step cfg g) x y z = some 1 ↔
        applyCellRule cfg (jsEq (cellAt g x y z) 1)
          (countNeighbors cfg g x y z) = true) := by
  refine ⟨by rw [step]; exact gridTabulate_wf _ _, ?_⟩
  intro x hx y hy z hz
  rw [step, cellAt_gridTabulate _ hx hy hz]
  by_cases h : applyCellRule cfg (jsEq (cellAt g x y z) 1)
      (countNeighbors cfg g x y z) = true
  · simp [h]
  · simp [h]

/-- Witness for C1 at the size-2 periodic configuration on the grid with
one live cell. -/
theorem step_spec_witness :
    cellAt (step cfg2w grid2single) 0 0 0 = some 1 ↔
      applyCellRule cfg2w (jsEq (cellAt grid2single 0 0 0) 1)
        (countNeighbors cfg2w grid2single 0 0 0) = true :=
  (step_spec cfg2w grid2single (by decide) (by decide)).2 0 (by decide) 0
    (by decide) 0 (by decide)

/-- C4 (amended): `gridsEqual` compares only the cells of the configured
`gridSize` region: for grids covering that region it returns true exactly
when every corresponding cell of the region matches.  It never inspects
the dimensions of the grids themselves, so differing-dimension grids agreeing on the
region compare equal (see the counterexample). -/
theorem gridsEqual_region_spec (cfg : GameOfLife3DConfig) (g1 g2 : Grid3D)
    (h1 : coversRegion cfg.gridSize g1)
    (h2 : coversRegion cfg.gridSize g2) :
    gridsEqual cfg g1 g2 = true ↔
      ∀ x < cfg.gridSize, ∀ y < cfg.gridSize, ∀ z < cfg.gridSize,
        cellAt g1 x y z = cellAt g2 x y z :=
  gridsEqual_iff cfg g1 g2

/-- C4 counterexample: a 1-cube and a 2-cube (different dimensions) whose
cells agree on the configured size-1 region compare equal instead of
false. -/
theorem gridsEqual_dims_counterexample :
    gridOne.length ≠ gridTwoCube.length ∧
    gridsEqual cfg1w gridOne gridTwoCube = true := by decide

/-- Witness for the amended statement of C4 on two equal 1-cubes. -/
theorem gridsEqual_region_spec_witness :
    gridsEqual cfg1w gridOne gridOne = true :=
  (gridsEqual_region_spec cfg1w gridOne gridOne (by decide)
    (by decide)).mpr (by decide)

/-- C6: every grid the engine produces is a fully populated cube of 0/1
cells: `createEmptyGrid` is all zeros (hence has zero living cells),
`createRandomGrid` holds only 0/1 for any draw, and so does `step` on a
well-formed 0/1 input. -/
theorem producedGrids_invariant (cfg : GameOfLife3DConfig)
    (draw : Nat → Nat → Nat → Bool) (g : Grid3D)
    (wf : wellFormedGrid cfg.gridSize g) (bin : binaryGrid g) :
    (wellFormedGrid cfg.gridSize (createEmptyGrid cfg) ∧
      ∀ p ∈ createEmptyGrid cfg, ∀ r ∈ p, ∀ v ∈ r, v = 0) ∧
    (wellFormedGrid cfg.gridSize (createRandomGrid cfg draw) ∧
      binaryGrid (createRandomGrid cfg draw)) ∧
    (wellFormedGrid cfg.gridSize (step cfg g) ∧ binaryGrid (step cfg g)) ∧
    countLivingCells cfg (createEmptyGrid cfg) = some 0 := by
  refine ⟨⟨wellFormed_createEmptyGrid cfg, createEmptyGrid_cells_zero cfg⟩,
    ⟨by rw [createRandomGrid]; exact gridTabulate_wf _ _, ?_⟩,
    ⟨by rw [step]; exact gridTabulate_wf _ _, ?_⟩, ?_⟩
  · rw [createRandomGrid]
    apply gridTabulate_binary
    intro x y z
    by_cases h : draw x y z <;> simp [h]
  · rw [step]
    apply gridTabulate_binary
    intro x y z
    dsimp only
    split
    · exact Or.inr rfl
    · exact Or.inl rfl
  · rw [countLivingCells]
    apply foldl_congr_id
    intro c x hx
    rw [List.mem_range] at hx
    dsimp only
    apply foldl_congr_id
    intro c1 y hy
    rw [List.mem_range] at hy
    dsimp only
    apply foldl_congr_id
    intro c2 z hz
    rw [List.mem_range] at hz
    rw [cellAt_createEmptyGrid cfg hx hy hz]
    exact jsAdd_some_zero _

/-- Witness for C6 at the size-2 periodic configuration. -/
theorem producedGrids_invariant_witness :
    countLivingCells cfg2w (createEmptyGrid cfg2w) = some 0 :=
  (producedGrids_invariant cfg2w (fun _ _ _ => false) grid2single
    (by decide) (by decide)).2.2.2

/-- C8: on a well-formed grid, `setCell` writes the value exactly when all
three coordinates are in `[0, gridSize)` and otherwise leaves every cell
unchanged; `getCell` returns the stored value in bounds and 0 out of
bounds; neither signals an error. -/
theorem cellAccess_spec (cfg : GameOfLife3DConfig) (g : Grid3D)
    (wf : wellFormedGrid cfg.gridSize g) (x y z v : Int) :
    (∀ _ : 0 ≤ x ∧ x < (cfg.gridSize : Int) ∧ 0 ≤ y ∧
        y < (cfg.gridSize : Int) ∧ 0 ≤ z ∧ z < (cfg.gridSize : Int),
      (∃ w, cellAt g x y z = some w ∧ getCell cfg g x y z = some w) ∧
      cellAt (setCell cfg g x y z v) x y z = some v) ∧
    (¬(0 ≤ x ∧ x < (cfg.gridSize : Int) ∧ 0 ≤ y ∧
        y < (cfg.gridSize : Int) ∧ 0 ≤ z ∧ z < (cfg.gridSize : Int)) →
      getCell cfg g x y z = some 0 ∧ setCell cfg g x y z v = g) ∧
    (∀ a b c : Int, ¬(a = x ∧ b = y ∧ c = z) →
      cellAt (setCell cfg g x y z v) a b c = cellAt g a b c) := by
  refine ⟨?_, ?_, ?_⟩
  · intro hin
    obtain ⟨hx, hx2, hy, hy2, hz, hz2⟩ := hin
    obtain ⟨w, hw⟩ := cellAt_isSome_of_wf_int wf hx hx2 hy hy2 hz hz2
    refine ⟨⟨w, hw, ?_⟩, ?_⟩
    · simp only [getCell]
      rw [if_pos ⟨hx, hx2, hy, hy2, hz, hz2⟩]
      exact hw
    · simp only [setCell]
      rw [if_pos ⟨hx, hx2, hy, hy2, hz, hz2⟩,
        cellAt_int_eq_nat hx hy hz]
      exact cellAt_set3_same wf (by omega) (by omega) (by omega) v
  · intro hout
    constructor
    · simp only [getCell]
      rw [if_neg hout]
    · simp only [setCell]
      rw [if_neg hout]
  · intro a b c hne
    by_cases hin : 0 ≤ x ∧ x < (cfg.gridSize : Int) ∧ 0 ≤ y ∧
        y < (cfg.gridSize : Int) ∧ 0 ≤ z ∧ z < (cfg.gridSize : Int)
    · obtain ⟨hx, hx2, hy, hy2, hz, hz2⟩ := hin
      simp only [setCell]
      rw [if_pos ⟨hx, hx2, hy, hy2, hz, hz2⟩]
      apply cellAt_set3_other wf (by omega) (by omega) (by omega) v
      rw [Int.toNat_of_nonneg hx, Int.toNat_of_nonneg hy,
        Int.toNat_of_nonneg hz]
      exact hne
    · simp only [setCell]
      rw [if_neg hin]

/-- Witness for C8: an out-of-range access on the 1-cube is a no-op read
of 0 and a no-op write. -/
theorem cellAccess_spec_witness :
    getCell cfg1w gridOne 5 0 0 = some 0 ∧
    setCell cfg1w gridOne 5 0 0 7 = gridOne :=
  (cellAccess_spec cfg1w gridOne (by decide) 5 0 0 7).2.1 (by decide)

/-- C7: at the object level, `step` returns a reference to a freshly
allocated grid (distinct from every existing reference, holding the next
generation) and writes only to that fresh grid, so the input grid — and
every other stored grid — is unchanged after the call. -/
theorem stepRef_fresh_frame (cfg : GameOfLife3DConfig) (s : GridStore)
    (r : Nat) (h : r < s.length) :
    (stepRef cfg s r).2 ≠ r ∧
    (∀ i < s.length, ((stepRef cfg s r).1)[i]? = s[i]?) ∧
    ((stepRef cfg s r).1)[(stepRef cfg s r).2]? =
      some (step cfg (storeRead s r)) := by
  refine ⟨?_, ?_, ?_⟩
  · simp only [stepRef, storeAlloc]
    omega
  · intro i hi
    simp only [stepRef, storeAlloc, storeWrite]
    rw [List.getElem?_set_ne (by omega)]
    simp [List.getElem?_append, hi]
  · simp only [stepRef, storeAlloc, storeWrite]
    rw [List.getElem?_set_self (by simp)]

/-- Witness for C7 on a one-grid store. -/
theorem stepRef_fresh_frame_witness :
    (stepRef cfg1w [gridOne] 0).2 ≠ 0 :=
  (stepRef_fresh_frame cfg1w [gridOne] 0 (by decide)).1

/-- C9: `updateConfig` replaces exactly the supplied fields and keeps
every omitted field, and `getConfig` returns a snapshot object distinct
from the configuration object held by the engine, so mutating the snapshot
never changes the configuration the engine keeps using. -/
theorem configOps_spec :
    (∀ (c : GameOfLife3DConfig) (p : PartialGameConfig),
      (p.gridSize = none → (updateConfig c p).gridSize = c.gridSize) ∧
      (∀ v, p.gridSize = some v → (updateConfig c p).gridSize = v) ∧
      (p.birthRule = none → (updateConfig c p).birthRule = c.birthRule) ∧
      (∀ v, p.birthRule = some v → (updateConfig c p).birthRule = v) ∧
      (p.survivalMin = none →
        (updateConfig c p).survivalMin = c.survivalMin) ∧
      (∀ v, p.survivalMin = some v → (updateConfig c p).survivalMin = v) ∧
      (p.survivalMax = none →
        (updateConfig c p).survivalMax = c.survivalMax) ∧
      (∀ v, p.survivalMax = some v → (updateConfig c p).survivalMax = v) ∧
      (p.periodicBoundaries = none →
        (updateConfig c p).periodicBoundaries = c.periodicBoundaries) ∧
      (∀ v, p.periodicBoundaries = some v →
        (updateConfig c p).periodicBoundaries = v)) ∧
    (∀ (s : ConfigStore) (r : Nat), r < s.length →
      (getConfigRef s r).2 ≠ r ∧
      ((getConfigRef s r).1)[r]? = s[r]? ∧
      ((getConfigRef s r).1)[(getConfigRef s r).2]? = s[r]? ∧
      ∀ c2, (cstoreWrite (getConfigRef s r).1 (getConfigRef s r).2
        c2)[r]? = s[r]?) := by
  constructor
  · intro c p
    refine ⟨?_, ?_, ?_, ?_, ?_, ?_, ?_, ?_, ?_, ?_⟩ <;>
      first
        | (intro h; simp [updateConfig, h])
        | (intro v h; simp [updateConfig, h])
  · intro s r h
    refine ⟨?_, ?_, ?_, ?_⟩
    · simp only [getConfigRef, cstoreAlloc]
      omega
    · simp only [getConfigRef, cstoreAlloc]
      simp [List.getElem?_append, h]
    · simp only [getConfigRef, cstoreAlloc]
      rw [List.getElem?_concat_length, List.getElem?_eq_getElem h]
      rfl
    · intro c2
      simp only [getConfigRef, cstoreAlloc, cstoreWrite]
      rw [List.getElem?_set_ne (by omega)]
      simp [List.getElem?_append, h]

/-- Witness for C9: updating only `birthRule` to 6 keeps `gridSize`, and
the snapshot reference differs from the internal one. -/
theorem configOps_spec_witness :
    (updateConfig cfg5p ⟨none, some 6, none, none, none⟩).birthRule = 6 ∧
    (updateConfig cfg5p ⟨none, some 6, none, none, none⟩).gridSize =
      cfg5p.gridSize ∧
    (getConfigRef [cfg5p] 0).2 ≠ 0 :=
  ⟨(configOps_spec.1 cfg5p ⟨none, some 6, none, none, none⟩).2.2.2.1 6 rfl,
    (configOps_spec.1 cfg5p ⟨none, some 6, none, none, none⟩).1 rfl,
    (configOps_spec.2 [cfg5p] 0 (by decide)).1⟩

end GoL3D
